import Mathlib

/-!
# leodrv: attach / detach lifecycle of the Leonardo ISDN PCI card

A shallow embedding of `src/leodrv.c` (`leo_hw_reset`, `leo_start`, `leo_halt`,
`leo_probe`, `leo_remove`) and the properties of its resource lifecycle.

Modelling conventions.

* Every call the driver makes into the PCI core, the allocator or the card
  (`kmalloc`, `pci_enable_device`, `pci_read_config_*`, `pci_resource_*`,
  `pci_request_regions`, `pci_iomap`, `iowrite32`, `pci_iounmap`,
  `pci_release_regions`, `pci_disable_device`, `kfree`) is recorded as an
  `Event`; each function returns the list of events it performs, in program
  order.  `printk` is not recorded.
* What those calls answer is an input: `Env` holds one answer per call site of
  `leo_probe`.
* `pci_set_drvdata` / `pci_get_drvdata` are a store to / load from the
  `drvdata` field of the `PciDev` state, not events.
* C `int` results are `Int`; `u32` and `u8` fields are `Nat` reduced
  `% 2^32` and `% 2^8` where they are stored; pointers are `Nat` with `0` for
  `NULL`, and `void *` arithmetic counts bytes.
-/

namespace Leodrv

/-! ## Constants -/

/-- The values of the kernel header constants `leodrv.c` uses (`ENOMEM`, `ENODEV` from
`errno-base.h`, `IORESOURCE_MEM` from `ioport.h`).  The headers are not part of the
repository, so the values are a parameter of the model. -/
structure KernelConsts where
  ENOMEM : Nat
  ENODEV : Nat
  IORESOURCE_MEM : Nat
deriving DecidableEq, Repr

/-- Control value written for a reset (`LEO_RESET`, leodrv.c:101). -/
def LEO_RESET : Nat := 0x400
/-- Control value named for a halt (`LEO_HALT`, leodrv.c:102). -/
def LEO_HALT : Nat := 0x400
/-- Control value written for a start (`LEO_RUN`, leodrv.c:103). -/
def LEO_RUN : Nat := 0x400
/-- Register offset of the main control register (leodrv.c:108). -/
def LEO_MAIN_CTRL : Nat := 0x3c
/-- Register offset of the auxiliary control register (leodrv.c:109). -/
def LEO_AUX_CTRL : Nat := 0x38
/-- Register offset of the RAM control register (leodrv.c:110); never written. -/
def LEO_RAM_CTRL : Nat := 52

/-! ## Data model -/

/-- The record `struct leo` (leodrv.c:89-98). -/
structure Leo where
  pdev : Nat
  card_space : Nat
  csr_begin : Nat
  csr_end : Nat
  leo_base_phys : Nat
  irq_line : Nat
deriving DecidableEq, Repr

/-- A `struct leo *`: the address `kmalloc` returned, together with the contents of the
record it points to. -/
structure Handle where
  ptr : Nat
  obj : Leo
deriving DecidableEq, Repr

/-- The part of `struct pci_dev` the driver reads back: the address of the device and
the driver-data back-reference (`none` is `NULL`). -/
structure PciDev where
  addr : Nat
  drvdata : Option Handle
deriving DecidableEq, Repr

/-- The calls the driver makes, with the arguments and results that matter. -/
inductive Event where
  | kmalloc (ret : Option Nat)
  | enable_device (ret : Int)
  | read_config_dword (ret : Int) (val : Nat)
  | read_config_byte (ret : Int) (val : Nat)
  | resource_flags (flags : Nat)
  | request_regions (ret : Int)
  | resource_start (val : Nat)
  | resource_end (val : Nat)
  | iomap (maxlen : Nat) (ret : Nat)
  | iowrite32 (value : Nat) (addr : Nat)
  | iounmap (addr : Nat)
  | release_regions
  | disable_device
  | kfree (ptr : Nat)
deriving DecidableEq, Repr

/-- The answers of the kernel to the calls of one `leo_probe` run: `kmalloc` is the
allocated record (`none` for `NULL`; the contents are whatever the memory held), the
`Int` fields are the returned codes, `read_config_*` also carry the value stored through
the pointer argument, and `iomap` is the returned window address (`0` for `NULL`). -/
structure Env where
  kmalloc : Option Handle
  enable_device : Int
  read_config_dword : Int × Nat
  read_config_byte : Int × Nat
  resource_flags : Nat
  request_regions : Int
  resource_start : Nat
  resource_end : Nat
  iomap : Nat
deriving DecidableEq, Repr

/-- The eight places of `leo_probe` that jump to a rollback label (the `goto` statements
at leodrv.c:189, 195, 201, 208, 216, 228, 236, 242). -/
inductive Step where
  | enable
  | read_base
  | read_irq
  | type_check
  | reserve
  | map
  | reset
  | start
deriving DecidableEq, Repr

/-- How `leo_probe` returned: `return -ENOMEM` (leodrv.c:179), through the rollback after
the `goto` at step `k` (leodrv.c:259), or `return 0` (leodrv.c:245).  The C function
returns only the code; this tag records which `return` statement was taken. -/
inductive Exit where
  | enomem
  | failed (k : Step)
  | done
deriving DecidableEq, Repr

/-- What one run of `leo_probe` amounts to: the returned code, the `return` taken, the
device state afterwards and the events performed. -/
structure ProbeResult where
  ret : Int
  exit : Exit
  pdev : PciDev
  trace : List Event
deriving DecidableEq, Repr

/-! ## Machine arithmetic -/

/-- Conversion to `u32`. -/
def u32 (x : Nat) : Nat := x % 2 ^ 32

/-- Conversion to `u8`. -/
def u8 (x : Nat) : Nat := x % 2 ^ 8

/-- The expression `leo->csr_end + 1 - leo->csr_begin` (leodrv.c:225) on `u32` operands:
addition and subtraction modulo `2^32`. -/
def map_len (csr_begin csr_end : Nat) : Nat :=
  (((csr_end + 1) % 2 ^ 32) + 2 ^ 32 - csr_begin % 2 ^ 32) % 2 ^ 32

/-! ## Hardware operations -/

/-- The function `leo_hw_reset` (leodrv.c:116-133): one 32-bit write of `LEO_RESET` to
`card_space + 0x80000 + LEO_MAIN_CTRL`; returns `0`. -/
def leo_hw_reset (leo : Leo) : Int × List Event :=
  let port := leo.card_space + 0x80000 + LEO_MAIN_CTRL
  (0, [Event.iowrite32 LEO_RESET port])

/-- The function `leo_start` (leodrv.c:138-148): one 32-bit write of `LEO_RUN` to
`card_space + 0x80000 + LEO_AUX_CTRL`; returns `0`. -/
def leo_start (leo : Leo) : Int × List Event :=
  let port := leo.card_space + 0x80000 + LEO_AUX_CTRL
  (0, [Event.iowrite32 LEO_RUN port])

/-- The function `leo_halt` (leodrv.c:153-163): one 32-bit write of `LEO_RESET` to
`card_space + 0x80000 + LEO_MAIN_CTRL`. -/
def leo_halt (leo : Leo) : List Event :=
  let port := leo.card_space + 0x80000 + LEO_MAIN_CTRL
  [Event.iowrite32 LEO_RESET port]

/-! ## Rollback labels of `leo_probe` -/

/-- Label `err_out` (leodrv.c:256-259): `pci_set_drvdata(pdev, NULL)` is applied to the
device state by `rollback`; the event is `kfree(leo)`. -/
def err_out (leo : Handle) : List Event :=
  [Event.kfree leo.ptr]

/-- Label `err_disable` (leodrv.c:253-254), falling through to `err_out`. -/
def err_disable (leo : Handle) : List Event :=
  Event.disable_device :: err_out leo

/-- Label `err_release_disable` (leodrv.c:250-251), falling through to `err_disable`. -/
def err_release_disable (leo : Handle) : List Event :=
  Event.release_regions :: err_disable leo

/-- Label `err_unmap` (leodrv.c:247-248), falling through to `err_release_disable`. -/
def err_unmap (leo : Handle) : List Event :=
  Event.iounmap leo.obj.card_space :: err_release_disable leo

/-- The label named by the `goto` of each failure point of `leo_probe`: `err_out` at
leodrv.c:189, `err_disable` at 195, 201, 208 and 216, `err_release_disable` at 228,
`err_unmap` at 236 and 242. -/
def Step.label : Step → Handle → List Event
  | Step.enable => err_out
  | Step.read_base => err_disable
  | Step.read_irq => err_disable
  | Step.type_check => err_disable
  | Step.reserve => err_disable
  | Step.map => err_release_disable
  | Step.reset => err_unmap
  | Step.start => err_unmap

/-- The `goto` of failure point `k` with the code `err`: the events `before` it, then the
events of its label, `pci_set_drvdata(pdev, NULL)`, and `return err`. -/
def rollback (k : Step) (err : Int) (pdev : PciDev) (before : List Event)
    (leo : Handle) : ProbeResult :=
  { ret := err, exit := Exit.failed k, pdev := { pdev with drvdata := none },
    trace := before ++ k.label leo }

/-! ## Attach and detach -/

/-- The function `leo_probe` (leodrv.c:168-260).  The back-reference stored at
leodrv.c:183 is a pointer, so on `return 0` the record seen through `drvdata` is the one
with all later field stores applied. -/
def leo_probe (K : KernelConsts) (env : Env) (pdev : PciDev) : ProbeResult :=
  match env.kmalloc with
  | none =>
    { ret := -(K.ENOMEM : Int), exit := Exit.enomem, pdev := pdev,
      trace := [Event.kmalloc none] }
  | some mem =>
    let leo : Handle := { mem with obj := { mem.obj with pdev := pdev.addr } }
    let pdev : PciDev := { pdev with drvdata := some leo }
    let t := [Event.kmalloc (some leo.ptr)]
    let err := env.enable_device
    let t := t ++ [Event.enable_device err]
    if err < 0 then rollback Step.enable err pdev t leo else
    let err := env.read_config_dword.1
    let leo : Handle :=
      { leo with obj := { leo.obj with leo_base_phys := u32 env.read_config_dword.2 } }
    let t := t ++ [Event.read_config_dword err env.read_config_dword.2]
    if err < 0 then rollback Step.read_base err pdev t leo else
    let err := env.read_config_byte.1
    let leo : Handle :=
      { leo with obj := { leo.obj with irq_line := u8 env.read_config_byte.2 } }
    let t := t ++ [Event.read_config_byte err env.read_config_byte.2]
    if err < 0 then rollback Step.read_irq err pdev t leo else
    let t := t ++ [Event.resource_flags env.resource_flags]
    if env.resource_flags &&& K.IORESOURCE_MEM = 0 then
      let err := -(K.ENODEV : Int)
      rollback Step.type_check err pdev t leo
    else
    let err := env.request_regions
    let t := t ++ [Event.request_regions err]
    if err < 0 then rollback Step.reserve err pdev t leo else
    let leo : Handle :=
      { leo with obj := { leo.obj with csr_begin := u32 env.resource_start } }
    let t := t ++ [Event.resource_start env.resource_start]
    let leo : Handle :=
      { leo with obj := { leo.obj with csr_end := u32 env.resource_end } }
    let t := t ++ [Event.resource_end env.resource_end]
    let leo : Handle :=
      { leo with obj := { leo.obj with card_space := env.iomap } }
    let t := t ++ [Event.iomap (map_len leo.obj.csr_begin leo.obj.csr_end) env.iomap]
    if leo.obj.card_space = 0 then
      -- no assignment to err here: it still holds the code of pci_request_regions
      rollback Step.map err pdev t leo
    else
    let err := (leo_hw_reset leo.obj).1
    let t := t ++ (leo_hw_reset leo.obj).2
    if err < 0 then rollback Step.reset err pdev t leo else
    let err := (leo_start leo.obj).1
    let t := t ++ (leo_start leo.obj).2
    if err < 0 then rollback Step.start err pdev t leo else
    { ret := 0, exit := Exit.done, pdev := { pdev with drvdata := some leo }, trace := t }

/-- The function `leo_remove` (leodrv.c:265-289): the device state afterwards and the
events performed. -/
def leo_remove (pdev : PciDev) : PciDev × List Event :=
  match pdev.drvdata with
  | some leo =>
    let t := leo_halt leo.obj
    let t := t ++ [Event.iounmap leo.obj.card_space]
    let t := t ++ [Event.release_regions]
    let t := t ++ [Event.disable_device]
    let pdev : PciDev := { pdev with drvdata := none }
    let t := t ++ [Event.kfree leo.ptr]
    (pdev, t)
  | none => (pdev, [])

/-! ## Reading a trace -/

/-- The four resources `leo_probe` acquires: the handle record (`kmalloc`), the enabled
device (`pci_enable_device`), the reservation (`pci_request_regions`) and the register
window (`pci_iomap`). -/
inductive Resource where
  | handle
  | enabled
  | reservation
  | mapping
deriving DecidableEq, Repr

/-- The resource an event acquires, if the call succeeded by the test `leo_probe`
applies to it (non-`NULL` for `kmalloc` and `pci_iomap`, not negative for the others). -/
def Event.acquires : Event → Option Resource
  | Event.kmalloc (some _) => some Resource.handle
  | Event.enable_device ret => if ret < 0 then none else some Resource.enabled
  | Event.request_regions ret => if ret < 0 then none else some Resource.reservation
  | Event.iomap _ ret => if ret = 0 then none else some Resource.mapping
  | _ => none

/-- The resource an event releases. -/
def Event.releases : Event → Option Resource
  | Event.kfree _ => some Resource.handle
  | Event.disable_device => some Resource.enabled
  | Event.release_regions => some Resource.reservation
  | Event.iounmap _ => some Resource.mapping
  | _ => none

/-- The resources acquired along a trace, in order. -/
def acquired (t : List Event) : List Resource := t.filterMap Event.acquires

/-- The resources released along a trace, in order. -/
def released (t : List Event) : List Resource := t.filterMap Event.releases

/-- The step of `leo_probe` an event belongs to (register writes are read by `writes`). -/
def Event.step : Event → Option Step
  | Event.enable_device _ => some Step.enable
  | Event.read_config_dword _ _ => some Step.read_base
  | Event.read_config_byte _ _ => some Step.read_irq
  | Event.resource_flags _ => some Step.type_check
  | Event.request_regions _ => some Step.reserve
  | Event.iomap _ _ => some Step.map
  | _ => none

/-- The steps of `leo_probe` executed along a trace, in order. -/
def steps (t : List Event) : List Step := t.filterMap Event.step

/-- The returned code of an event of one of the four steps whose code `leo_probe` tests
with `err < 0`. -/
def Event.code : Event → Option (Step × Int)
  | Event.enable_device ret => some (Step.enable, ret)
  | Event.read_config_dword ret _ => some (Step.read_base, ret)
  | Event.read_config_byte ret _ => some (Step.read_irq, ret)
  | Event.request_regions ret => some (Step.reserve, ret)
  | _ => none

/-- The tested step codes along a trace. -/
def codes (t : List Event) : List (Step × Int) := t.filterMap Event.code

/-- The register write of an event, as (value, address). -/
def Event.write : Event → Option (Nat × Nat)
  | Event.iowrite32 value addr => some (value, addr)
  | _ => none

/-- The register writes along a trace, in order. -/
def writes (t : List Event) : List (Nat × Nat) := t.filterMap Event.write

/-- The size argument of a mapping request. -/
def Event.map_size : Event → Option Nat
  | Event.iomap maxlen _ => some maxlen
  | _ => none

/-- The sizes of the mapping requests along a trace. -/
def map_sizes (t : List Event) : List Nat := t.filterMap Event.map_size

/-- The resources held when step `k` is reached, in the order `leo_probe` acquires
them. -/
def held_at : Step → List Resource
  | Step.enable => [Resource.handle]
  | Step.read_base => [Resource.handle, Resource.enabled]
  | Step.read_irq => [Resource.handle, Resource.enabled]
  | Step.type_check => [Resource.handle, Resource.enabled]
  | Step.reserve => [Resource.handle, Resource.enabled]
  | Step.map => [Resource.handle, Resource.enabled, Resource.reservation]
  | Step.reset =>
    [Resource.handle, Resource.enabled, Resource.reservation, Resource.mapping]
  | Step.start =>
    [Resource.handle, Resource.enabled, Resource.reservation, Resource.mapping]

/-- The step that follows `k` in `leo_probe`. -/
def Step.next : Step → Option Step
  | Step.enable => some Step.read_base
  | Step.read_base => some Step.read_irq
  | Step.read_irq => some Step.type_check
  | Step.type_check => some Step.reserve
  | Step.reserve => some Step.map
  | Step.map => some Step.reset
  | Step.reset => some Step.start
  | Step.start => none

/-- The steps of `leo_probe` up to and including `k`, for the steps that are calls into
the PCI core. -/
def Step.upto : Step → List Step
  | Step.enable => [Step.enable]
  | Step.read_base => [Step.enable, Step.read_base]
  | Step.read_irq => [Step.enable, Step.read_base, Step.read_irq]
  | Step.type_check => [Step.enable, Step.read_base, Step.read_irq, Step.type_check]
  | Step.reserve =>
    [Step.enable, Step.read_base, Step.read_irq, Step.type_check, Step.reserve]
  | _ =>
    [Step.enable, Step.read_base, Step.read_irq, Step.type_check, Step.reserve, Step.map]

/-! ## Concrete inputs -/

/-- The constants as Linux defines them. -/
def linux : KernelConsts := { ENOMEM := 12, ENODEV := 19, IORESOURCE_MEM := 0x200 }

/-- A device not bound to a driver. -/
def dev0 : PciDev := { addr := 0xc0de00, drvdata := none }

/-- Freshly allocated memory for one record. -/
def mem0 : Handle :=
  { ptr := 0xf000, obj := { pdev := 0, card_space := 0, csr_begin := 0, csr_end := 0,
                            leo_base_phys := 0, irq_line := 0 } }

/-- A card on which every step succeeds: BAR0 is memory at 0x1000..0x1FFF. -/
def env_ok : Env :=
  { kmalloc := some mem0, enable_device := 0, read_config_dword := (0, 0x1000),
    read_config_byte := (0, 11), resource_flags := 0x200, request_regions := 0,
    resource_start := 0x1000, resource_end := 0x1FFF, iomap := 0xd0000000 }

/-- The card of `env_ok` when `pci_iomap` refuses the mapping. -/
def env_map_refused : Env := { env_ok with iomap := 0 }

/-- The card of `env_ok` with BAR0 reported as an I/O-port resource
(`IORESOURCE_IO = 0x100`). -/
def env_io_port : Env := { env_ok with resource_flags := 0x100 }

/-- The card of `env_ok` when `pci_request_regions` answers `-EBUSY`. -/
def env_busy : Env := { env_ok with request_regions := -16 }

/-- A card whose BAR0 is reported as the range 0..0xFFFFFFFF. -/
def env_wide : Env := { env_ok with resource_start := 0, resource_end := 0xFFFFFFFF }

/-- A card whose BAR0 is a 64-bit resource of 4 GiB placed above 4 GiB. -/
def env_high : Env :=
  { env_ok with resource_start := 0x100000000, resource_end := 0x1FFFFFFFF }

/-- The card of `env_ok` when `kmalloc` returns `NULL`. -/
def env_nomem : Env := { env_ok with kmalloc := none }

/-- A device whose back-reference already points to a record when `leo_probe` is
called. -/
def dev_stale : PciDev :=
  { addr := 0xc0de00,
    drvdata := some { ptr := 0xe000,
                      obj := { pdev := 0xc0de00, card_space := 0xd0000000,
                               csr_begin := 0x1000, csr_end := 0x1FFF,
                               leo_base_phys := 0x1000, irq_line := 11 } } }

end Leodrv

namespace Leodrv

/-! ## The paths of `leo_probe` -/

/-- Allocation failure: `return -ENOMEM` with the device untouched. -/
theorem probe_enomem (K : KernelConsts) (env : Env) (pdev : PciDev)
    (h0 : env.kmalloc = none) :
    leo_probe K env pdev =
      { ret := -(K.ENOMEM : Int), exit := Exit.enomem, pdev := pdev,
        trace := [Event.kmalloc none] } := by
  simp [leo_probe, h0]

/-- Path through the `goto err_out` after `pci_enable_device`. -/
theorem probe_fail_enable (K : KernelConsts) (env : Env) (pdev : PciDev) (mem : Handle)
    (h0 : env.kmalloc = some mem) (h1 : env.enable_device < 0) :
    leo_probe K env pdev =
      { ret := env.enable_device, exit := Exit.failed Step.enable,
        pdev := { pdev with drvdata := none },
        trace := [Event.kmalloc (some mem.ptr), Event.enable_device env.enable_device,
                  Event.kfree mem.ptr] } := by
  simp [leo_probe, h0, h1, rollback, Step.label, err_out]

/-- Path through the `goto err_disable` after `pci_read_config_dword`. -/
theorem probe_fail_read_base (K : KernelConsts) (env : Env) (pdev : PciDev) (mem : Handle)
    (h0 : env.kmalloc = some mem) (h1 : ¬ env.enable_device < 0)
    (h2 : env.read_config_dword.1 < 0) :
    leo_probe K env pdev =
      { ret := env.read_config_dword.1, exit := Exit.failed Step.read_base,
        pdev := { pdev with drvdata := none },
        trace := [Event.kmalloc (some mem.ptr), Event.enable_device env.enable_device,
                  Event.read_config_dword env.read_config_dword.1 env.read_config_dword.2,
                  Event.disable_device, Event.kfree mem.ptr] } := by
  simp [leo_probe, h0, h1, h2, rollback, Step.label, err_out, err_disable]

/-- Path through the `goto err_disable` after `pci_read_config_byte`. -/
theorem probe_fail_read_irq (K : KernelConsts) (env : Env) (pdev : PciDev) (mem : Handle)
    (h0 : env.kmalloc = some mem) (h1 : ¬ env.enable_device < 0)
    (h2 : ¬ env.read_config_dword.1 < 0) (h3 : env.read_config_byte.1 < 0) :
    leo_probe K env pdev =
      { ret := env.read_config_byte.1, exit := Exit.failed Step.read_irq,
        pdev := { pdev with drvdata := none },
        trace := [Event.kmalloc (some mem.ptr), Event.enable_device env.enable_device,
                  Event.read_config_dword env.read_config_dword.1 env.read_config_dword.2,
                  Event.read_config_byte env.read_config_byte.1 env.read_config_byte.2,
                  Event.disable_device, Event.kfree mem.ptr] } := by
  simp [leo_probe, h0, h1, h2, h3, rollback, Step.label, err_out, err_disable]

/-- Path through the `goto err_disable` of the resource-type check. -/
theorem probe_fail_type_check (K : KernelConsts) (env : Env) (pdev : PciDev)
    (mem : Handle) (h0 : env.kmalloc = some mem) (h1 : ¬ env.enable_device < 0)
    (h2 : ¬ env.read_config_dword.1 < 0) (h3 : ¬ env.read_config_byte.1 < 0)
    (h4 : env.resource_flags &&& K.IORESOURCE_MEM = 0) :
    leo_probe K env pdev =
      { ret := -(K.ENODEV : Int), exit := Exit.failed Step.type_check,
        pdev := { pdev with drvdata := none },
        trace := [Event.kmalloc (some mem.ptr), Event.enable_device env.enable_device,
                  Event.read_config_dword env.read_config_dword.1 env.read_config_dword.2,
                  Event.read_config_byte env.read_config_byte.1 env.read_config_byte.2,
                  Event.resource_flags env.resource_flags,
                  Event.disable_device, Event.kfree mem.ptr] } := by
  simp [leo_probe, h0, h1, h2, h3, h4, rollback, Step.label, err_out, err_disable]

/-- Path through the `goto err_disable` after `pci_request_regions`. -/
theorem probe_fail_reserve (K : KernelConsts) (env : Env) (pdev : PciDev) (mem : Handle)
    (h0 : env.kmalloc = some mem) (h1 : ¬ env.enable_device < 0)
    (h2 : ¬ env.read_config_dword.1 < 0) (h3 : ¬ env.read_config_byte.1 < 0)
    (h4 : ¬ env.resource_flags &&& K.IORESOURCE_MEM = 0)
    (h5 : env.request_regions < 0) :
    leo_probe K env pdev =
      { ret := env.request_regions, exit := Exit.failed Step.reserve,
        pdev := { pdev with drvdata := none },
        trace := [Event.kmalloc (some mem.ptr), Event.enable_device env.enable_device,
                  Event.read_config_dword env.read_config_dword.1 env.read_config_dword.2,
                  Event.read_config_byte env.read_config_byte.1 env.read_config_byte.2,
                  Event.resource_flags env.resource_flags,
                  Event.request_regions env.request_regions,
                  Event.disable_device, Event.kfree mem.ptr] } := by
  simp [leo_probe, h0, h1, h2, h3, h4, h5, rollback, Step.label, err_out, err_disable]

/-- Path through the `goto err_release_disable` after `pci_iomap`: the returned code is
the one `pci_request_regions` left in `err`. -/
theorem probe_fail_map (K : KernelConsts) (env : Env) (pdev : PciDev) (mem : Handle)
    (h0 : env.kmalloc = some mem) (h1 : ¬ env.enable_device < 0)
    (h2 : ¬ env.read_config_dword.1 < 0) (h3 : ¬ env.read_config_byte.1 < 0)
    (h4 : ¬ env.resource_flags &&& K.IORESOURCE_MEM = 0)
    (h5 : ¬ env.request_regions < 0) (h6 : env.iomap = 0) :
    leo_probe K env pdev =
      { ret := env.request_regions, exit := Exit.failed Step.map,
        pdev := { pdev with drvdata := none },
        trace := [Event.kmalloc (some mem.ptr), Event.enable_device env.enable_device,
                  Event.read_config_dword env.read_config_dword.1 env.read_config_dword.2,
                  Event.read_config_byte env.read_config_byte.1 env.read_config_byte.2,
                  Event.resource_flags env.resource_flags,
                  Event.request_regions env.request_regions,
                  Event.resource_start env.resource_start,
                  Event.resource_end env.resource_end,
                  Event.iomap (map_len (u32 env.resource_start) (u32 env.resource_end)) 0,
                  Event.release_regions, Event.disable_device, Event.kfree mem.ptr] } := by
  simp [leo_probe, h0, h1, h2, h3, h4, h5, h6, rollback, Step.label, err_out, err_disable,
    err_release_disable]

/-- Path to `return 0`. -/
theorem probe_done (K : KernelConsts) (env : Env) (pdev : PciDev) (mem : Handle)
    (h0 : env.kmalloc = some mem) (h1 : ¬ env.enable_device < 0)
    (h2 : ¬ env.read_config_dword.1 < 0) (h3 : ¬ env.read_config_byte.1 < 0)
    (h4 : ¬ env.resource_flags &&& K.IORESOURCE_MEM = 0)
    (h5 : ¬ env.request_regions < 0) (h6 : ¬ env.iomap = 0) :
    leo_probe K env pdev =
      { ret := 0, exit := Exit.done,
        pdev := { pdev with drvdata := some (Handle.mk mem.ptr
          { pdev := pdev.addr, card_space := env.iomap,
            csr_begin := u32 env.resource_start, csr_end := u32 env.resource_end,
            leo_base_phys := u32 env.read_config_dword.2,
            irq_line := u8 env.read_config_byte.2 }) },
        trace := [Event.kmalloc (some mem.ptr), Event.enable_device env.enable_device,
                  Event.read_config_dword env.read_config_dword.1 env.read_config_dword.2,
                  Event.read_config_byte env.read_config_byte.1 env.read_config_byte.2,
                  Event.resource_flags env.resource_flags,
                  Event.request_regions env.request_regions,
                  Event.resource_start env.resource_start,
                  Event.resource_end env.resource_end,
                  Event.iomap (map_len (u32 env.resource_start) (u32 env.resource_end))
                    env.iomap,
                  Event.iowrite32 0x400 (env.iomap + 0x80000 + 0x3c),
                  Event.iowrite32 0x400 (env.iomap + 0x80000 + 0x38)] } := by
  simp [leo_probe, h0, h1, h2, h3, h4, h5, h6, leo_hw_reset, leo_start, LEO_RESET,
    LEO_RUN, LEO_MAIN_CTRL, LEO_AUX_CTRL]

/-- The eight paths of `leo_probe` cover every answer of the kernel. -/
theorem env_cases (K : KernelConsts) (env : Env) :
    env.kmalloc = none ∨ ∃ mem, env.kmalloc = some mem ∧
      (env.enable_device < 0 ∨ (¬ env.enable_device < 0 ∧
      (env.read_config_dword.1 < 0 ∨ (¬ env.read_config_dword.1 < 0 ∧
      (env.read_config_byte.1 < 0 ∨ (¬ env.read_config_byte.1 < 0 ∧
      (env.resource_flags &&& K.IORESOURCE_MEM = 0 ∨
        (¬ env.resource_flags &&& K.IORESOURCE_MEM = 0 ∧
      (env.request_regions < 0 ∨ (¬ env.request_regions < 0 ∧
      (env.iomap = 0 ∨ ¬ env.iomap = 0))))))))))) := by
  cases h0 : env.kmalloc with
  | none => exact Or.inl rfl
  | some mem =>
    refine Or.inr ⟨mem, rfl, ?_⟩
    by_cases h1 : env.enable_device < 0
    · exact Or.inl h1
    refine Or.inr ⟨h1, ?_⟩
    by_cases h2 : env.read_config_dword.1 < 0
    · exact Or.inl h2
    refine Or.inr ⟨h2, ?_⟩
    by_cases h3 : env.read_config_byte.1 < 0
    · exact Or.inl h3
    refine Or.inr ⟨h3, ?_⟩
    by_cases h4 : env.resource_flags &&& K.IORESOURCE_MEM = 0
    · exact Or.inl h4
    refine Or.inr ⟨h4, ?_⟩
    by_cases h5 : env.request_regions < 0
    · exact Or.inl h5
    exact Or.inr ⟨h5, em _⟩

/-! ## Rollback -/

/-- C1: for every failure point `k`, the label its `goto` names releases exactly the
resources held at `k`, each once, in the reverse of the order of acquisition; and when
`leo_probe` leaves through the rollback of `k`, the resources acquired along the run are
those held at `k` and the resources released along the run are exactly these, each once,
in reverse order. -/
theorem rollback_complete (K : KernelConsts) (env : Env) (pdev : PciDev) (k : Step) :
    (∀ leo : Handle, released (k.label leo) = (held_at k).reverse) ∧
    ((leo_probe K env pdev).exit = Exit.failed k →
      acquired (leo_probe K env pdev).trace = held_at k ∧
      released (leo_probe K env pdev).trace =
        (acquired (leo_probe K env pdev).trace).reverse ∧
      (released (leo_probe K env pdev).trace).Nodup) := by
  refine ⟨fun leo => ?_, fun h => ?_⟩
  · cases k <;>
      simp [Step.label, released, err_unmap, err_release_disable, err_disable, err_out,
        held_at, Event.releases]
  rcases env_cases K env with h0 | ⟨mem, h0, h1 | ⟨h1, h2 | ⟨h2, h3 | ⟨h3, h4 | ⟨h4,
    h5 | ⟨h5, h6 | h6⟩⟩⟩⟩⟩⟩
  · rw [probe_enomem K env pdev h0] at h
    simp at h
  · rw [probe_fail_enable K env pdev mem h0 h1] at h ⊢
    simp only [Exit.failed.injEq] at h
    subst h
    simp [acquired, released, held_at, Event.acquires, Event.releases, h1]
  · rw [probe_fail_read_base K env pdev mem h0 h1 h2] at h ⊢
    simp only [Exit.failed.injEq] at h
    subst h
    simp [acquired, released, held_at, Event.acquires, Event.releases, h1]
  · rw [probe_fail_read_irq K env pdev mem h0 h1 h2 h3] at h ⊢
    simp only [Exit.failed.injEq] at h
    subst h
    simp [acquired, released, held_at, Event.acquires, Event.releases, h1]
  · rw [probe_fail_type_check K env pdev mem h0 h1 h2 h3 h4] at h ⊢
    simp only [Exit.failed.injEq] at h
    subst h
    simp [acquired, released, held_at, Event.acquires, Event.releases, h1]
  · rw [probe_fail_reserve K env pdev mem h0 h1 h2 h3 h4 h5] at h ⊢
    simp only [Exit.failed.injEq] at h
    subst h
    simp [acquired, released, held_at, Event.acquires, Event.releases, h1, h5]
  · rw [probe_fail_map K env pdev mem h0 h1 h2 h3 h4 h5 h6] at h ⊢
    simp only [Exit.failed.injEq] at h
    subst h
    simp [acquired, released, held_at, Event.acquires, Event.releases, h1, h5]
  · rw [probe_done K env pdev mem h0 h1 h2 h3 h4 h5 h6] at h
    simp at h

/-- C1 at a concrete input: the mapping is refused, and the reservation, the device and
the handle are released in this order. -/
theorem rollback_complete_witness :
    (leo_probe linux env_map_refused dev0).exit = Exit.failed Step.map ∧
    acquired (leo_probe linux env_map_refused dev0).trace = held_at Step.map ∧
    released (leo_probe linux env_map_refused dev0).trace =
      (acquired (leo_probe linux env_map_refused dev0).trace).reverse ∧
    (released (leo_probe linux env_map_refused dev0).trace).Nodup :=
  ⟨by decide, (rollback_complete linux env_map_refused dev0 Step.map).2 (by decide)⟩

/-- The hardware operations report success unconditionally, so `leo_probe` never leaves
through the `goto err_unmap` of the reset or of the start. -/
theorem probe_hw_steps_never_fail (K : KernelConsts) (env : Env) (pdev : PciDev) :
    (leo_probe K env pdev).exit ≠ Exit.failed Step.reset ∧
    (leo_probe K env pdev).exit ≠ Exit.failed Step.start := by
  rcases env_cases K env with h0 | ⟨mem, h0, h1 | ⟨h1, h2 | ⟨h2, h3 | ⟨h3, h4 | ⟨h4,
    h5 | ⟨h5, h6 | h6⟩⟩⟩⟩⟩⟩
  · simp [probe_enomem K env pdev h0]
  · simp [probe_fail_enable K env pdev mem h0 h1]
  · simp [probe_fail_read_base K env pdev mem h0 h1 h2]
  · simp [probe_fail_read_irq K env pdev mem h0 h1 h2 h3]
  · simp [probe_fail_type_check K env pdev mem h0 h1 h2 h3 h4]
  · simp [probe_fail_reserve K env pdev mem h0 h1 h2 h3 h4 h5]
  · simp [probe_fail_map K env pdev mem h0 h1 h2 h3 h4 h5 h6]
  · simp [probe_done K env pdev mem h0 h1 h2 h3 h4 h5 h6]

/-- The resources held at the reset and at the start are those a run through `return 0`
has acquired. -/
theorem held_at_hw_steps (K : KernelConsts) (env : Env) (pdev : PciDev)
    (h : (leo_probe K env pdev).exit = Exit.done) :
    acquired (leo_probe K env pdev).trace = held_at Step.reset ∧
    acquired (leo_probe K env pdev).trace = held_at Step.start := by
  rcases env_cases K env with h0 | ⟨mem, h0, h1 | ⟨h1, h2 | ⟨h2, h3 | ⟨h3, h4 | ⟨h4,
    h5 | ⟨h5, h6 | h6⟩⟩⟩⟩⟩⟩
  · simp [probe_enomem K env pdev h0] at h
  · simp [probe_fail_enable K env pdev mem h0 h1] at h
  · simp [probe_fail_read_base K env pdev mem h0 h1 h2] at h
  · simp [probe_fail_read_irq K env pdev mem h0 h1 h2 h3] at h
  · simp [probe_fail_type_check K env pdev mem h0 h1 h2 h3 h4] at h
  · simp [probe_fail_reserve K env pdev mem h0 h1 h2 h3 h4 h5] at h
  · simp [probe_fail_map K env pdev mem h0 h1 h2 h3 h4 h5 h6] at h
  · rw [probe_done K env pdev mem h0 h1 h2 h3 h4 h5 h6]
    simp [acquired, Event.acquires, held_at, h1, h5, h6]

/-- C2, at the input where every step succeeds and `pci_iomap` returns `NULL`: the
reservation, the device and the handle are released and the back-reference is cleared,
but the code returned is `0`, the value of `pci_request_regions`, not a negative one. -/
theorem map_refused_returns_zero :
    (leo_probe linux env_map_refused dev0).exit = Exit.failed Step.map ∧
    released (leo_probe linux env_map_refused dev0).trace =
      [Resource.reservation, Resource.enabled, Resource.handle] ∧
    (leo_probe linux env_map_refused dev0).pdev.drvdata = none ∧
    (leo_probe linux env_map_refused dev0).ret = 0 ∧
    (leo_probe linux env_map_refused dev0).ret = (leo_probe linux env_ok dev0).ret := by
  decide

/-- Whenever the mapping is refused, `leo_probe` returns the code of
`pci_request_regions`, which is not negative. -/
theorem map_refused_ret_nonneg (K : KernelConsts) (env : Env) (pdev : PciDev)
    (h : (leo_probe K env pdev).exit = Exit.failed Step.map) :
    (leo_probe K env pdev).ret = env.request_regions ∧ 0 ≤ (leo_probe K env pdev).ret := by
  rcases env_cases K env with h0 | ⟨mem, h0, h1 | ⟨h1, h2 | ⟨h2, h3 | ⟨h3, h4 | ⟨h4,
    h5 | ⟨h5, h6 | h6⟩⟩⟩⟩⟩⟩
  · simp [probe_enomem K env pdev h0] at h
  · simp [probe_fail_enable K env pdev mem h0 h1] at h
  · simp [probe_fail_read_base K env pdev mem h0 h1 h2] at h
  · simp [probe_fail_read_irq K env pdev mem h0 h1 h2 h3] at h
  · simp [probe_fail_type_check K env pdev mem h0 h1 h2 h3 h4] at h
  · simp [probe_fail_reserve K env pdev mem h0 h1 h2 h3 h4 h5] at h
  · rw [probe_fail_map K env pdev mem h0 h1 h2 h3 h4 h5 h6]
    exact ⟨rfl, not_lt.mp h5⟩
  · simp [probe_done K env pdev mem h0 h1 h2 h3 h4 h5 h6] at h

/-- C3: when the allocation, the enable and both configuration reads succeed and the
flags of BAR0 lack `IORESOURCE_MEM`, `leo_probe` returns `-ENODEV`; the steps executed
stop at the type check (no reservation call, no mapping call), no register is written,
and the releases are one `pci_disable_device` followed by one `kfree`. -/
theorem resource_type_gate (K : KernelConsts) (env : Env) (pdev : PciDev) (mem : Handle)
    (h0 : env.kmalloc = some mem) (h1 : 0 ≤ env.enable_device)
    (h2 : 0 ≤ env.read_config_dword.1) (h3 : 0 ≤ env.read_config_byte.1)
    (h4 : env.resource_flags &&& K.IORESOURCE_MEM = 0) :
    (leo_probe K env pdev).ret = -(K.ENODEV : Int) ∧
    steps (leo_probe K env pdev).trace =
      [Step.enable, Step.read_base, Step.read_irq, Step.type_check] ∧
    Step.reserve ∉ steps (leo_probe K env pdev).trace ∧
    Step.map ∉ steps (leo_probe K env pdev).trace ∧
    writes (leo_probe K env pdev).trace = [] ∧
    released (leo_probe K env pdev).trace = [Resource.enabled, Resource.handle] ∧
    (leo_probe K env pdev).trace.count Event.disable_device = 1 ∧
    (leo_probe K env pdev).trace.count (Event.kfree mem.ptr) = 1 := by
  rw [probe_fail_type_check K env pdev mem h0 (not_lt.mpr h1) (not_lt.mpr h2)
    (not_lt.mpr h3) h4]
  simp [steps, writes, released, Event.step, Event.write, Event.releases]

/-- C3 at a concrete input: BAR0 reported as an I/O-port resource. -/
theorem resource_type_gate_witness :
    env_io_port.resource_flags &&& linux.IORESOURCE_MEM = 0 ∧
    (leo_probe linux env_io_port dev0).ret = -(linux.ENODEV : Int) ∧
    steps (leo_probe linux env_io_port dev0).trace =
      [Step.enable, Step.read_base, Step.read_irq, Step.type_check] ∧
    Step.reserve ∉ steps (leo_probe linux env_io_port dev0).trace ∧
    Step.map ∉ steps (leo_probe linux env_io_port dev0).trace ∧
    writes (leo_probe linux env_io_port dev0).trace = [] ∧
    released (leo_probe linux env_io_port dev0).trace =
      [Resource.enabled, Resource.handle] ∧
    (leo_probe linux env_io_port dev0).trace.count Event.disable_device = 1 ∧
    (leo_probe linux env_io_port dev0).trace.count (Event.kfree mem0.ptr) = 1 :=
  ⟨by decide, resource_type_gate linux env_io_port dev0 mem0 rfl (by decide) (by decide)
    (by decide) (by decide)⟩

/-! ## Register writes and detach -/

/-- C4: when `leo_probe` leaves through `return 0`, it returns `0` and its register
writes are exactly two: `0x400` at byte offset `0x80000 + 0x3c` of the window
`pci_iomap` returned (reset), then `0x400` at byte offset `0x80000 + 0x38` (start). -/
theorem attach_writes (K : KernelConsts) (env : Env) (pdev : PciDev)
    (h : (leo_probe K env pdev).exit = Exit.done) :
    (leo_probe K env pdev).ret = 0 ∧
    writes (leo_probe K env pdev).trace =
      [(0x400, env.iomap + (0x80000 + 0x3c)), (0x400, env.iomap + (0x80000 + 0x38))] := by
  rcases env_cases K env with h0 | ⟨mem, h0, h1 | ⟨h1, h2 | ⟨h2, h3 | ⟨h3, h4 | ⟨h4,
    h5 | ⟨h5, h6 | h6⟩⟩⟩⟩⟩⟩
  · simp [probe_enomem K env pdev h0] at h
  · simp [probe_fail_enable K env pdev mem h0 h1] at h
  · simp [probe_fail_read_base K env pdev mem h0 h1 h2] at h
  · simp [probe_fail_read_irq K env pdev mem h0 h1 h2 h3] at h
  · simp [probe_fail_type_check K env pdev mem h0 h1 h2 h3 h4] at h
  · simp [probe_fail_reserve K env pdev mem h0 h1 h2 h3 h4 h5] at h
  · simp [probe_fail_map K env pdev mem h0 h1 h2 h3 h4 h5 h6] at h
  · rw [probe_done K env pdev mem h0 h1 h2 h3 h4 h5 h6]
    simp [writes, Event.write, Nat.add_assoc]

/-- C4 at a concrete input: the two writes of a successful attach. -/
theorem attach_writes_witness :
    (leo_probe linux env_ok dev0).exit = Exit.done ∧
    (leo_probe linux env_ok dev0).ret = 0 ∧
    writes (leo_probe linux env_ok dev0).trace =
      [(0x400, env_ok.iomap + (0x80000 + 0x3c)),
       (0x400, env_ok.iomap + (0x80000 + 0x38))] :=
  ⟨by decide, attach_writes linux env_ok dev0 (by decide)⟩

/-- C5: on a device with a handle, `leo_remove` performs one write of `0x400` at byte
offset `0x80000 + 0x3c` of the register window (the write of `leo_hw_reset`), then
`pci_iounmap`, `pci_release_regions`, `pci_disable_device` and `kfree`, once each, and
clears the back-reference; the order of the releases is the reverse of the order in
which any successful `leo_probe` acquires the resources. -/
theorem detach_sequence (pdev : PciDev) (leo : Handle) (h : pdev.drvdata = some leo) :
    leo_remove pdev =
      ({ pdev with drvdata := none },
       [Event.iowrite32 0x400 (leo.obj.card_space + (0x80000 + 0x3c)),
        Event.iounmap leo.obj.card_space, Event.release_regions, Event.disable_device,
        Event.kfree leo.ptr]) ∧
    leo_halt leo.obj = (leo_hw_reset leo.obj).2 ∧
    released (leo_remove pdev).2 =
      [Resource.mapping, Resource.reservation, Resource.enabled, Resource.handle] ∧
    ∀ (K : KernelConsts) (env : Env) (p : PciDev),
      (leo_probe K env p).exit = Exit.done →
      released (leo_remove pdev).2 = (acquired (leo_probe K env p).trace).reverse := by
  have hrem : leo_remove pdev =
      ({ pdev with drvdata := none },
       [Event.iowrite32 0x400 (leo.obj.card_space + (0x80000 + 0x3c)),
        Event.iounmap leo.obj.card_space, Event.release_regions, Event.disable_device,
        Event.kfree leo.ptr]) := by
    simp [leo_remove, h, leo_halt, LEO_RESET, LEO_MAIN_CTRL, Nat.add_assoc]
  refine ⟨hrem, rfl, ?_, ?_⟩
  · rw [hrem]
    simp [released, Event.releases]
  · intro K env p hp
    rw [hrem]
    rcases env_cases K env with h0 | ⟨mem, h0, h1 | ⟨h1, h2 | ⟨h2, h3 | ⟨h3, h4 | ⟨h4,
      h5 | ⟨h5, h6 | h6⟩⟩⟩⟩⟩⟩
    · simp [probe_enomem K env p h0] at hp
    · simp [probe_fail_enable K env p mem h0 h1] at hp
    · simp [probe_fail_read_base K env p mem h0 h1 h2] at hp
    · simp [probe_fail_read_irq K env p mem h0 h1 h2 h3] at hp
    · simp [probe_fail_type_check K env p mem h0 h1 h2 h3 h4] at hp
    · simp [probe_fail_reserve K env p mem h0 h1 h2 h3 h4 h5] at hp
    · simp [probe_fail_map K env p mem h0 h1 h2 h3 h4 h5 h6] at hp
    · rw [probe_done K env p mem h0 h1 h2 h3 h4 h5 h6]
      simp [released, acquired, Event.releases, Event.acquires, h1, h5, h6]

/-- C5 at a concrete input: detach of the handle left by a successful attach. -/
theorem detach_sequence_witness :
    (leo_probe linux env_ok dev0).pdev.drvdata =
      some (Handle.mk 0xf000 (Leo.mk 0xc0de00 0xd0000000 0x1000 0x1FFF 0x1000 11)) ∧
    leo_remove (leo_probe linux env_ok dev0).pdev =
      (dev0,
       [Event.iowrite32 0x400 (0xd0000000 + (0x80000 + 0x3c)),
        Event.iounmap 0xd0000000, Event.release_regions, Event.disable_device,
        Event.kfree 0xf000]) ∧
    released (leo_remove (leo_probe linux env_ok dev0).pdev).2 =
      (acquired (leo_probe linux env_ok dev0).trace).reverse :=
  have hd : (leo_probe linux env_ok dev0).pdev.drvdata =
      some (Handle.mk 0xf000 (Leo.mk 0xc0de00 0xd0000000 0x1000 0x1FFF 0x1000 11)) := by
    decide
  ⟨hd, (detach_sequence (leo_probe linux env_ok dev0).pdev _ hd).1,
    (detach_sequence (leo_probe linux env_ok dev0).pdev _ hd).2.2.2 linux env_ok dev0
      (by decide)⟩

/-- C7: on a device without a handle, `leo_remove` performs no event at all (no register
write, no unmap, no release of the reservation, no disable, no free) and returns the
device state as it was. -/
theorem detach_absent (pdev : PciDev) (h : pdev.drvdata = none) :
    leo_remove pdev = (pdev, []) ∧
    writes (leo_remove pdev).2 = [] ∧
    released (leo_remove pdev).2 = [] := by
  simp [leo_remove, h, writes, released]

/-- C7 at a concrete input: detach of a device that was never attached. -/
theorem detach_absent_witness :
    dev0.drvdata = none ∧
    leo_remove dev0 = (dev0, []) ∧
    writes (leo_remove dev0).2 = [] ∧
    released (leo_remove dev0).2 = [] :=
  ⟨rfl, detach_absent dev0 rfl⟩

/-- C6: after a successful `leo_probe`, `leo_remove` on the resulting device unmaps the
window `pci_iomap` returned and frees the record `kmalloc` returned; in the combined
trace the four resources are acquired once each and released once each, attach itself
releases nothing, and the back-reference is cleared. -/
theorem attach_detach_no_leak (K : KernelConsts) (env : Env) (pdev : PciDev)
    (h : (leo_probe K env pdev).exit = Exit.done) :
    acquired (leo_probe K env pdev).trace =
      [Resource.handle, Resource.enabled, Resource.reservation, Resource.mapping] ∧
    released (leo_probe K env pdev).trace = [] ∧
    (∃ mem, env.kmalloc = some mem ∧
      (leo_remove (leo_probe K env pdev).pdev).2 =
        [Event.iowrite32 0x400 (env.iomap + (0x80000 + 0x3c)), Event.iounmap env.iomap,
         Event.release_regions, Event.disable_device, Event.kfree mem.ptr]) ∧
    (∀ r : Resource,
      (acquired ((leo_probe K env pdev).trace ++
        (leo_remove (leo_probe K env pdev).pdev).2)).count r = 1 ∧
      (released ((leo_probe K env pdev).trace ++
        (leo_remove (leo_probe K env pdev).pdev).2)).count r = 1) ∧
    (leo_remove (leo_probe K env pdev).pdev).1.drvdata = none := by
  rcases env_cases K env with h0 | ⟨mem, h0, h1 | ⟨h1, h2 | ⟨h2, h3 | ⟨h3, h4 | ⟨h4,
    h5 | ⟨h5, h6 | h6⟩⟩⟩⟩⟩⟩
  · simp [probe_enomem K env pdev h0] at h
  · simp [probe_fail_enable K env pdev mem h0 h1] at h
  · simp [probe_fail_read_base K env pdev mem h0 h1 h2] at h
  · simp [probe_fail_read_irq K env pdev mem h0 h1 h2 h3] at h
  · simp [probe_fail_type_check K env pdev mem h0 h1 h2 h3 h4] at h
  · simp [probe_fail_reserve K env pdev mem h0 h1 h2 h3 h4 h5] at h
  · simp [probe_fail_map K env pdev mem h0 h1 h2 h3 h4 h5 h6] at h
  · rw [probe_done K env pdev mem h0 h1 h2 h3 h4 h5 h6]
    refine ⟨?_, ?_, ⟨mem, h0, ?_⟩, ?_, ?_⟩
    · simp [acquired, Event.acquires, h1, h5, h6]
    · simp [released, Event.releases]
    · simp [leo_remove, leo_halt, LEO_RESET, LEO_MAIN_CTRL, Nat.add_assoc]
    · intro r
      cases r <;>
        simp [leo_remove, leo_halt, acquired, released, Event.acquires, Event.releases,
          h1, h5, h6]
    · simp [leo_remove]

/-- C6 at a concrete input: attach and detach of the card of `env_ok`. -/
theorem attach_detach_no_leak_witness :
    (leo_probe linux env_ok dev0).exit = Exit.done ∧
    (∀ r : Resource,
      (acquired ((leo_probe linux env_ok dev0).trace ++
        (leo_remove (leo_probe linux env_ok dev0).pdev).2)).count r = 1 ∧
      (released ((leo_probe linux env_ok dev0).trace ++
        (leo_remove (leo_probe linux env_ok dev0).pdev).2)).count r = 1) ∧
    (leo_remove (leo_probe linux env_ok dev0).pdev).1.drvdata = none :=
  ⟨by decide, (attach_detach_no_leak linux env_ok dev0 (by decide)).2.2.2.1,
    (attach_detach_no_leak linux env_ok dev0 (by decide)).2.2.2.2⟩

/-! ## Mapping size -/

/-- On a range shorter than `2^32` bytes the `u32` expression of leodrv.c:225 is the
length of the range. -/
theorem map_len_exact (a b : Nat) (hab : a ≤ b) (hlen : b - a + 1 < 2 ^ 32) :
    map_len (u32 a) (u32 b) = b - a + 1 := by
  simp only [map_len, u32] at *
  norm_num at *
  omega

/-- Whenever `leo_probe` requests the mapping, it does so once, with the `u32` value of
`csr_end + 1 - csr_begin`. -/
theorem map_request_size (K : KernelConsts) (env : Env) (pdev : PciDev)
    (h : Step.map ∈ steps (leo_probe K env pdev).trace) :
    map_sizes (leo_probe K env pdev).trace =
      [map_len (u32 env.resource_start) (u32 env.resource_end)] := by
  rcases env_cases K env with h0 | ⟨mem, h0, h1 | ⟨h1, h2 | ⟨h2, h3 | ⟨h3, h4 | ⟨h4,
    h5 | ⟨h5, h6 | h6⟩⟩⟩⟩⟩⟩
  · simp [probe_enomem K env pdev h0, steps, Event.step] at h
  · simp [probe_fail_enable K env pdev mem h0 h1, steps, Event.step] at h
  · simp [probe_fail_read_base K env pdev mem h0 h1 h2, steps, Event.step] at h
  · simp [probe_fail_read_irq K env pdev mem h0 h1 h2 h3, steps, Event.step] at h
  · simp [probe_fail_type_check K env pdev mem h0 h1 h2 h3 h4, steps, Event.step] at h
  · simp [probe_fail_reserve K env pdev mem h0 h1 h2 h3 h4 h5, steps, Event.step] at h
  · simp [probe_fail_map K env pdev mem h0 h1 h2 h3 h4 h5 h6, map_sizes, Event.map_size]
  · simp [probe_done K env pdev mem h0 h1 h2 h3 h4 h5 h6, map_sizes, Event.map_size]

/-- C8 as stated fails: for the range 0..0xFFFFFFFF, of `0x100000000` bytes, the size
`leo_probe` passes to `pci_iomap` is `0`; so it is for the range
0x100000000..0x1FFFFFFFF of the same length. -/
theorem map_size_wraps :
    env_wide.resource_start ≤ env_wide.resource_end ∧
    env_wide.resource_end - env_wide.resource_start + 1 = 0x100000000 ∧
    map_sizes (leo_probe linux env_wide dev0).trace = [0] ∧
    map_sizes (leo_probe linux env_wide dev0).trace ≠
      [env_wide.resource_end - env_wide.resource_start + 1] ∧
    env_high.resource_end - env_high.resource_start + 1 = 0x100000000 ∧
    map_sizes (leo_probe linux env_high dev0).trace = [0] := by
  decide

/-- C8, amended: when `leo_probe` requests the mapping of a range `start..end` of fewer
than `2^32` bytes, the size it passes is exactly `end - start + 1`. -/
theorem map_size_exact (K : KernelConsts) (env : Env) (pdev : PciDev)
    (h : Step.map ∈ steps (leo_probe K env pdev).trace)
    (hrange : env.resource_start ≤ env.resource_end)
    (hlen : env.resource_end - env.resource_start + 1 < 2 ^ 32) :
    map_sizes (leo_probe K env pdev).trace =
      [env.resource_end - env.resource_start + 1] := by
  rw [map_request_size K env pdev h, map_len_exact _ _ hrange hlen]

/-- C8 at the range of the specification: 0x1000..0x1FFF is mapped with size 0x1000. -/
theorem map_size_exact_witness :
    Step.map ∈ steps (leo_probe linux env_ok dev0).trace ∧
    env_ok.resource_start = 0x1000 ∧ env_ok.resource_end = 0x1FFF ∧
    map_sizes (leo_probe linux env_ok dev0).trace = [0x1000] :=
  ⟨by decide, rfl, rfl,
    map_size_exact linux env_ok dev0 (by decide) (by decide) (by decide)⟩

/-! ## Back-reference and returned codes -/

/-- C9 as stated fails on the `return -ENOMEM` path: on a device whose back-reference
is not `NULL` when `leo_probe` is called and `kmalloc` fails, `leo_probe` returns
without touching the back-reference, and `leo_remove` afterwards performs one register
write and four releases. -/
theorem enomem_keeps_stale_handle :
    (leo_probe linux env_nomem dev_stale).exit = Exit.enomem ∧
    (leo_probe linux env_nomem dev_stale).exit ≠ Exit.done ∧
    (leo_probe linux env_nomem dev_stale).ret = -12 ∧
    (leo_probe linux env_nomem dev_stale).pdev.drvdata ≠ none ∧
    writes (leo_remove (leo_probe linux env_nomem dev_stale).pdev).2 =
      [(0x400, 0xd0000000 + (0x80000 + 0x3c))] ∧
    released (leo_remove (leo_probe linux env_nomem dev_stale).pdev).2 =
      [Resource.mapping, Resource.reservation, Resource.enabled, Resource.handle] := by
  decide

/-- C9, amended: whatever the device state before, every return of `leo_probe` through
a rollback leaves the back-reference `NULL`, so that `leo_remove` afterwards performs no
event (no release, no register write) and changes nothing; the `return -ENOMEM` path
leaves the device as it was, so the same holds there when the back-reference was `NULL`
before; and `return 0` leaves the back-reference on the record `kmalloc` returned. -/
theorem backreference_after_attach (K : KernelConsts) (env : Env) (pdev : PciDev) :
    (∀ k, (leo_probe K env pdev).exit = Exit.failed k →
      (leo_probe K env pdev).pdev.drvdata = none ∧
      leo_remove (leo_probe K env pdev).pdev = ((leo_probe K env pdev).pdev, []) ∧
      released (leo_remove (leo_probe K env pdev).pdev).2 = [] ∧
      writes (leo_remove (leo_probe K env pdev).pdev).2 = []) ∧
    ((leo_probe K env pdev).exit = Exit.enomem →
      (leo_probe K env pdev).pdev = pdev ∧
      (pdev.drvdata = none →
        (leo_probe K env pdev).pdev.drvdata = none ∧
        leo_remove (leo_probe K env pdev).pdev = ((leo_probe K env pdev).pdev, []) ∧
        released (leo_remove (leo_probe K env pdev).pdev).2 = [] ∧
        writes (leo_remove (leo_probe K env pdev).pdev).2 = [])) ∧
    ((leo_probe K env pdev).exit = Exit.done →
      ∃ mem leo, env.kmalloc = some mem ∧
        (leo_probe K env pdev).pdev.drvdata = some leo ∧ leo.ptr = mem.ptr) := by
  rcases env_cases K env with h0 | ⟨mem, h0, h1 | ⟨h1, h2 | ⟨h2, h3 | ⟨h3, h4 | ⟨h4,
    h5 | ⟨h5, h6 | h6⟩⟩⟩⟩⟩⟩
  · rw [probe_enomem K env pdev h0]
    refine ⟨fun k hk => by simp at hk, fun _ => ⟨rfl, fun hd => ?_⟩, fun hk => by simp at hk⟩
    simp [leo_remove, hd, released, writes]
  · simp [probe_fail_enable K env pdev mem h0 h1, leo_remove, released, writes]
  · simp [probe_fail_read_base K env pdev mem h0 h1 h2, leo_remove, released, writes]
  · simp [probe_fail_read_irq K env pdev mem h0 h1 h2 h3, leo_remove, released, writes]
  · simp [probe_fail_type_check K env pdev mem h0 h1 h2 h3 h4, leo_remove, released,
      writes]
  · simp [probe_fail_reserve K env pdev mem h0 h1 h2 h3 h4 h5, leo_remove, released,
      writes]
  · simp [probe_fail_map K env pdev mem h0 h1 h2 h3 h4 h5 h6, leo_remove, released,
      writes]
  · simp [probe_done K env pdev mem h0 h1 h2 h3 h4 h5 h6, h0]

/-- C9, amended, at concrete inputs: a rollback on a device whose back-reference was set
before, the `return -ENOMEM` path on a device without a handle, and `return 0`. -/
theorem backreference_after_attach_witness :
    ((leo_probe linux env_busy dev_stale).exit = Exit.failed Step.reserve ∧
      (leo_probe linux env_busy dev_stale).pdev.drvdata = none ∧
      leo_remove (leo_probe linux env_busy dev_stale).pdev =
        ((leo_probe linux env_busy dev_stale).pdev, [])) ∧
    ((leo_probe linux env_nomem dev0).exit = Exit.enomem ∧ dev0.drvdata = none ∧
      (leo_probe linux env_nomem dev0).pdev.drvdata = none ∧
      leo_remove (leo_probe linux env_nomem dev0).pdev =
        ((leo_probe linux env_nomem dev0).pdev, [])) ∧
    ((leo_probe linux env_ok dev_stale).exit = Exit.done ∧
      ∃ mem leo, env_ok.kmalloc = some mem ∧
        (leo_probe linux env_ok dev_stale).pdev.drvdata = some leo ∧ leo.ptr = mem.ptr) :=
  ⟨⟨by decide,
      ((backreference_after_attach linux env_busy dev_stale).1 Step.reserve (by decide)).1,
      ((backreference_after_attach linux env_busy dev_stale).1 Step.reserve
        (by decide)).2.1⟩,
    ⟨by decide, rfl,
      (((backreference_after_attach linux env_nomem dev0).2.1 (by decide)).2 rfl).1,
      (((backreference_after_attach linux env_nomem dev0).2.1 (by decide)).2 rfl).2.1⟩,
    ⟨by decide, (backreference_after_attach linux env_ok dev_stale).2.2 (by decide)⟩⟩

/-- C10: for a step `k` among device enable, the two configuration reads and the
reservation, executed with code `r`: `leo_probe` takes the failure branch of `k` exactly
when `r` is negative; then it returns `r` itself, and no step after `k` is executed and
no register is written; when `r` is zero or positive the step after `k` is executed. -/
theorem code_propagation (K : KernelConsts) (env : Env) (pdev : PciDev) (k : Step)
    (r : Int) (h : (k, r) ∈ codes (leo_probe K env pdev).trace) :
    (r < 0 ↔ (leo_probe K env pdev).exit = Exit.failed k) ∧
    (r < 0 →
      (leo_probe K env pdev).ret = r ∧
      steps (leo_probe K env pdev).trace = k.upto ∧
      writes (leo_probe K env pdev).trace = []) ∧
    (0 ≤ r → ∃ n, k.next = some n ∧ n ∈ steps (leo_probe K env pdev).trace) := by
  rcases env_cases K env with h0 | ⟨mem, h0, h1 | ⟨h1, h2 | ⟨h2, h3 | ⟨h3, h4 | ⟨h4,
    h5 | ⟨h5, h6 | h6⟩⟩⟩⟩⟩⟩
  · simp [probe_enomem K env pdev h0, codes, Event.code] at h
  · rw [probe_fail_enable K env pdev mem h0 h1] at h ⊢
    simp [codes, Event.code] at h
    obtain ⟨rfl, rfl⟩ := h
    simp [steps, writes, Event.step, Event.write, Step.upto, Step.next, h1, not_le.mpr h1]
  · rw [probe_fail_read_base K env pdev mem h0 h1 h2] at h ⊢
    simp [codes, Event.code] at h
    rcases h with ⟨rfl, rfl⟩ | ⟨rfl, rfl⟩ <;>
      simp [steps, writes, Event.step, Event.write, Step.upto, Step.next, h1, h2,
        not_le.mpr h2, not_lt.mp h1]
  · rw [probe_fail_read_irq K env pdev mem h0 h1 h2 h3] at h ⊢
    simp [codes, Event.code] at h
    rcases h with ⟨rfl, rfl⟩ | ⟨rfl, rfl⟩ | ⟨rfl, rfl⟩ <;>
      simp [steps, writes, Event.step, Event.write, Step.upto, Step.next, h1, h2, h3,
        not_le.mpr h3, not_lt.mp h1, not_lt.mp h2]
  · rw [probe_fail_type_check K env pdev mem h0 h1 h2 h3 h4] at h ⊢
    simp [codes, Event.code] at h
    rcases h with ⟨rfl, rfl⟩ | ⟨rfl, rfl⟩ | ⟨rfl, rfl⟩ <;>
      simp [steps, writes, Event.step, Event.write, Step.upto, Step.next, h1, h2, h3,
        not_lt.mp h1, not_lt.mp h2, not_lt.mp h3]
  · rw [probe_fail_reserve K env pdev mem h0 h1 h2 h3 h4 h5] at h ⊢
    simp [codes, Event.code] at h
    rcases h with ⟨rfl, rfl⟩ | ⟨rfl, rfl⟩ | ⟨rfl, rfl⟩ | ⟨rfl, rfl⟩ <;>
      simp [steps, writes, Event.step, Event.write, Step.upto, Step.next, h1, h2, h3,
        h5, not_le.mpr h5, not_lt.mp h1, not_lt.mp h2, not_lt.mp h3]
  · rw [probe_fail_map K env pdev mem h0 h1 h2 h3 h4 h5 h6] at h ⊢
    simp [codes, Event.code] at h
    rcases h with ⟨rfl, rfl⟩ | ⟨rfl, rfl⟩ | ⟨rfl, rfl⟩ | ⟨rfl, rfl⟩ <;>
      simp [steps, writes, Event.step, Event.write, Step.upto, Step.next, h1, h2, h3,
        h5, not_lt.mp h1, not_lt.mp h2, not_lt.mp h3, not_lt.mp h5]
  · rw [probe_done K env pdev mem h0 h1 h2 h3 h4 h5 h6] at h ⊢
    simp [codes, Event.code] at h
    rcases h with ⟨rfl, rfl⟩ | ⟨rfl, rfl⟩ | ⟨rfl, rfl⟩ | ⟨rfl, rfl⟩ <;>
      simp [steps, writes, Event.step, Event.write, Step.upto, Step.next, h1, h2, h3,
        h5, not_lt.mp h1, not_lt.mp h2, not_lt.mp h3, not_lt.mp h5]

/-- C10 at a concrete input: `pci_request_regions` answers `-16`, which `leo_probe`
returns, without a mapping request. -/
theorem code_propagation_witness :
    (Step.reserve, (-16 : Int)) ∈ codes (leo_probe linux env_busy dev0).trace ∧
    (leo_probe linux env_busy dev0).exit = Exit.failed Step.reserve ∧
    (leo_probe linux env_busy dev0).ret = -16 ∧
    steps (leo_probe linux env_busy dev0).trace = Step.reserve.upto ∧
    writes (leo_probe linux env_busy dev0).trace = [] :=
  have hc : (Step.reserve, (-16 : Int)) ∈ codes (leo_probe linux env_busy dev0).trace := by
    decide
  ⟨hc, (code_propagation linux env_busy dev0 Step.reserve (-16) hc).1.mp (by decide),
    (code_propagation linux env_busy dev0 Step.reserve (-16) hc).2.1 (by decide)⟩

end Leodrv
